import Mathlib

/-!
Verification development for the integration-agent core of the
html-to-nextjs-converter repository.  The definitions below are a shallow
embedding of the Python source in src/integration/try-04-testing.py (the
near-duplicate src/integration/try-03-testing.py agrees on every embedded
function).  Filesystem and process effects are passed in explicitly as
functions, and Python exceptions are modelled as an explicit error channel
of type PyExn carried by Except.
-/

/-- Python exception classes relevant to the embedded code.  `except Exception`
catches every class; `except subprocess.CalledProcessError` catches only
`calledProcessError`. -/
inductive ExnClass where
  | calledProcessError
  | fileNotFoundError
  | typeError
  | otherError
deriving DecidableEq, Repr

/-- A Python exception value.  For CalledProcessError the returncode, stdout
and stderr fields carry the payload used by the handler in
run_shell_command. -/
structure PyExn where
  cls : ExnClass
  msg : String := ""
  returncode : Nat := 0
  stdout : String := ""
  stderr : String := ""
deriving DecidableEq, Repr

/-- Embedding of a Python `try: ... except Exception as e: return handler(e)`
block whose body produces a string: every exception class is caught and
turned into the handler string, so the result is always ok. -/
def exceptAll (body : Except PyExn String) (handler : PyExn → String) :
    Except PyExn String :=
  match body with
  | .ok s => .ok s
  | .error e => .ok (handler e)

/-- Embedding of a Python `try: ... except C as e: return handler(e)` block
that catches only the single exception class `cls`; other exceptions
propagate. -/
def exceptOnly (cls : ExnClass) (body : Except PyExn String)
    (handler : PyExn → String) : Except PyExn String :=
  match body with
  | .ok s => .ok s
  | .error e => if e.cls = cls then .ok (handler e) else .error e

/-- Whether the char list p is an initial segment of the char list s.
Structural, so it evaluates inside the kernel. -/
def listLead : List Char → List Char → Bool
  | [], _ => true
  | _ :: _, [] => false
  | p :: ps, c :: cs => p = c && listLead ps cs

/-- Whether the string s starts with the string p (kernel-computable
replacement for the builtin test). -/
def strStartsWith (s p : String) : Bool := listLead p.data s.data

/-- Whether the string s ends with the string p (kernel-computable
replacement for the builtin test). -/
def strEndsWith (s p : String) : Bool := listLead p.data.reverse s.data.reverse

/-- Split a char list on the path separator; acc holds the reversed current
component. -/
def splitSlashAux : List Char → List Char → List (List Char)
  | acc, [] => [acc.reverse]
  | acc, c :: cs =>
    if c = '/' then acc.reverse :: splitSlashAux [] cs
    else splitSlashAux (c :: acc) cs

/-- The slash-separated components of a string. -/
def pathComponents (s : String) : List (List Char) := splitSlashAux [] s.data

/-- posix os.path.join for two components: a component that starts with the
separator discards everything before it. -/
def osPathJoin (a b : String) : String :=
  if strStartsWith b "/" then b
  else if a = "" then b
  else if strEndsWith a "/" then a ++ b
  else a ++ "/" ++ b

/-- Message of the TypeError raised by os.path.join / pathlib.Path when the
first argument is None (PROJECT_PATH or SCHEMA_JSON_PATH unset). -/
def noneTypeErrorMsg : String :=
  "expected str, bytes or os.PathLike object, not NoneType"

/-- read_file from src/integration/try-04-testing.py lines 25-34.  The
filesystem is passed in as `fs`, mapping a resolved path to the file content
or an exception.  The whole body, including the os.path.join on a possibly
unset PROJECT_PATH, sits inside a catch-all try/except. -/
def read_file (projectPath : Option String) (filePath : String)
    (fs : String → Except PyExn String) : Except PyExn String :=
  exceptAll
    (match projectPath with
     | none => .error { cls := .typeError, msg := noneTypeErrorMsg }
     | some p => fs (osPathJoin p filePath))
    (fun e => "Error reading file " ++ filePath ++ ": " ++ e.msg)

/-- write_file from src/integration/try-04-testing.py lines 36-47.  The
makedirs-and-write effect is passed in as `wfs`, mapping resolved path and
content to unit or an exception. -/
def write_file (projectPath : Option String) (filePath content : String)
    (wfs : String → String → Except PyExn Unit) : Except PyExn String :=
  exceptAll
    (match projectPath with
     | none => .error { cls := .typeError, msg := noneTypeErrorMsg }
     | some p =>
       match wfs (osPathJoin p filePath) content with
       | .ok _ => .ok ("Successfully wrote to " ++ osPathJoin p filePath ++ ".")
       | .error e => .error e)
    (fun e => "Error writing to file " ++ filePath ++ ": " ++ e.msg)

/-- list_directory from src/integration/try-04-testing.py lines 49-58.  The
os.listdir effect is passed in as `lfs`. -/
def list_directory (projectPath : Option String) (path : String)
    (lfs : String → Except PyExn (List String)) : Except PyExn String :=
  exceptAll
    (match projectPath with
     | none => .error { cls := .typeError, msg := noneTypeErrorMsg }
     | some p =>
       match lfs (osPathJoin p path) with
       | .ok entries => .ok (String.intercalate "\n" entries)
       | .error e => .error e)
    (fun e => "Error listing directory " ++ path ++ ": " ++ e.msg)

/-- The argument record passed to subprocess.run by run_shell_command,
src/integration/try-04-testing.py lines 72-79.  No timeout argument appears
in the source, so the timeout field is none. -/
structure SubprocessArgs where
  command : String
  cwd : String
  check : Bool
  capture_output : Bool
  text : Bool
  shell : Bool
  timeout : Option Nat
deriving DecidableEq, Repr

/-- Builds the exact subprocess.run argument record from the source: cwd is
the project path, check/capture_output/text/shell are all true, and no
timeout is supplied. -/
def mkSubprocessArgs (cwd command : String) : SubprocessArgs :=
  { command := command, cwd := cwd, check := true, capture_output := true,
    text := true, shell := true, timeout := none }

/-- Outcome of actually running a subprocess: either the process completed
with an exit code and captured streams, or launching it failed with an
OS-level exception (for example FileNotFoundError when cwd is missing). -/
inductive ProcOutcome where
  | completed (exitCode : Nat) (stdout stderr : String)
  | osError (e : PyExn)
deriving DecidableEq, Repr

/-- subprocess.run with check=True: a completed process with non-zero exit
code raises CalledProcessError carrying returncode, stdout and stderr; an
OS-level launch failure raises as is; exit code zero yields the success
string built right after the call in the source. -/
def subprocessRunChecked (args : SubprocessArgs)
    (exec : SubprocessArgs → ProcOutcome) : Except PyExn String :=
  match exec args with
  | .completed 0 out _ =>
    .ok ("Command executed successfully. Output:\n" ++ out)
  | .completed code out err =>
    .error { cls := .calledProcessError, msg := "non-zero exit status",
             returncode := code, stdout := out, stderr := err }
  | .osError e => .error e

/-- run_shell_command from src/integration/try-04-testing.py lines 60-82.
PROJECT_PATH unset is handled by an early return; the try/except around
subprocess.run catches only CalledProcessError and formats its payload;
every other exception propagates across the tool boundary. -/
def run_shell_command (projectPath : Option String) (command : String)
    (exec : SubprocessArgs → ProcOutcome) : Except PyExn String :=
  match projectPath with
  | none => .ok "Error: PROJECT_PATH is not set in the .env file."
  | some p =>
    exceptOnly .calledProcessError
      (subprocessRunChecked (mkSubprocessArgs p command) exec)
      (fun e =>
        "Command failed with exit code " ++ toString e.returncode ++
        ". Stderr:\n" ++ e.stderr ++ "\nStdout:\n" ++ e.stdout)

/-- validate_typescript_code from src/integration/try-04-testing.py lines
84-91: exactly run_shell_command on the fixed type-checker command. -/
def validate_typescript_code (projectPath : Option String)
    (exec : SubprocessArgs → ProcOutcome) : Except PyExn String :=
  run_shell_command projectPath "npx tsc --noEmit" exec

/-!
Glob matching as performed by pathlib.Path.glob, which DirectoryLoader uses
on the pattern from src/integration/try-04-testing.py line 115.  pathlib
splits the pattern on the separator, lets a bare doubled star component match
any number of directory levels (including zero), and matches every other
component with fnmatch semantics where a star matches any run of characters
inside one component, a question mark matches one character, and every other
character (curly braces and commas included, since fnmatch performs no brace
expansion) matches only itself.  The matcher is written with explicit fuel so
that it is structural and evaluates inside the kernel; the fuel supplied is
always sufficient because every recursive call shrinks pattern or path.
-/

/-- fnmatch-style match of one pattern component against one path component,
with fuel. -/
def matchCompFuel : Nat → List Char → List Char → Bool
  | 0, _, _ => false
  | _ + 1, [], [] => true
  | f + 1, '*' :: ps, cs =>
    matchCompFuel f ps cs ||
      (match cs with
       | [] => false
       | _ :: cs2 => matchCompFuel f ('*' :: ps) cs2)
  | f + 1, '?' :: ps, _ :: cs => matchCompFuel f ps cs
  | f + 1, p :: ps, c :: cs => p = c && matchCompFuel f ps cs
  | _ + 1, _, _ => false

/-- fnmatch-style match of one pattern component against one path
component. -/
def matchComp (ps cs : List Char) : Bool :=
  matchCompFuel (ps.length + cs.length + 1) ps cs

/-- Match a list of pattern components against a list of path components,
with fuel; a doubled-star component may absorb zero or more path
components. -/
def matchCompsFuel : Nat → List (List Char) → List (List Char) → Bool
  | 0, _, _ => false
  | _ + 1, [], [] => true
  | f + 1, p :: ps, cs =>
    if p = ['*', '*'] then
      matchCompsFuel f ps cs ||
        (match cs with
         | [] => false
         | _ :: cs2 => matchCompsFuel f (p :: ps) cs2)
    else
      match cs with
      | [] => false
      | c :: cs2 => matchComp p c && matchCompsFuel f ps cs2
  | _ + 1, [], _ :: _ => false

/-- pathlib.Path.glob matching of a slash-separated pattern against a
slash-separated path relative to the scanned root. -/
def globMatch (pattern path : String) : Bool :=
  let ps := pathComponents pattern
  let cs := pathComponents path
  matchCompsFuel (ps.length + cs.length + 1) ps cs

/-- The glob pattern handed to DirectoryLoader in
src/integration/try-04-testing.py line 115 (the curly braces of the source
literal written as hex escapes). -/
def tsGlobPattern : String := "**/*.\x7bts,tsx\x7d"

/-- A source document as loaded by DirectoryLoader: path relative to the
scanned root plus file content. -/
structure Document where
  source : String
  text : String
deriving DecidableEq, Repr

/-- One stored chunk: source path and chunk text. -/
structure Chunk where
  source : String
  text : String
deriving DecidableEq, Repr

/-- The persisted vector store as visible to the agent: the list of stored
chunks.  The constructor of CodeIndexer loads whatever the persist directory
already holds. -/
structure IndexerState where
  store : List Chunk
deriving DecidableEq, Repr

/-- Modelled from the spec: RecursiveCharacterTextSplitter is an external
library; the spec says files are split into chunks of a fixed target length
(1000) with a fixed overlap (100), never crossing file boundaries.  Written
with explicit fuel so it is structural; the fuel, one unit per character,
always suffices since each step drops at least 900 characters. -/
def chunkListFuel : Nat → List Char → List String
  | 0, _ => []
  | _ + 1, [] => []
  | f + 1, cs =>
    if cs.length ≤ 1000 then [String.mk cs]
    else String.mk (cs.take 1000) :: chunkListFuel f (cs.drop 900)

/-- Split one document into its chunks, each tagged with the document
source path. -/
def splitDocument (d : Document) : List Chunk :=
  (chunkListFuel (d.text.length + 1) d.text.toList).map
    (fun t => { source := d.source, text := t })

/-- The path components test used at src/integration/try-04-testing.py line
125: whether any pathlib part of the source path is node_modules. -/
def inNodeModules (s : String) : Bool :=
  (pathComponents s).any (fun p => p = "node_modules".data)

/-- The document scan of index_project, lines 113-126: DirectoryLoader
filters the files of the tree by the glob pattern, then documents whose path
contains a node_modules component are dropped. -/
def scanDocuments (files : List Document) : List Document :=
  (files.filter (fun d => globMatch tsGlobPattern d.source)).filter
    (fun d => !inNodeModules d.source)

/-- index_project from src/integration/try-04-testing.py lines 109-146,
as a transition on the store state.  When the filtered document list is
empty the method prints the warning and returns early, leaving the store as
it was (the boolean component records that the warning fired).  Otherwise
the documents are split into chunks and, modelled from the spec (the
Chroma.from_documents call is an external library; the spec says a re-run
replaces the store wholesale), the store becomes exactly those chunks. -/
def index_project (files : List Document) (st : IndexerState) :
    IndexerState × Bool :=
  let docs := scanDocuments files
  if docs = [] then (st, true)
  else ({ store := docs.flatMap splitDocument }, false)

/-- The top-k bound of the retriever returned by get_retriever,
src/integration/try-04-testing.py line 150. -/
def get_retriever_k : Nat := 5

/-- Modelled from the spec: similarity retrieval over the store is performed
by the external vector store; the spec says it returns the top-k chunks by
ascending embedding distance, and the empty list on an empty store.  The
distance ordering is abstracted; only the bound and the empty case are used
below. -/
def retrieve (st : IndexerState) (k : Nat) : List Chunk :=
  st.store.take k

/-!
The agent loop.  The loop body lives in the external LangChain AgentExecutor;
it is modelled from the spec (section 4.3: PLANNING asks the policy for one
structured action, EXECUTING dispatches it, OBSERVING appends the result,
DONE comes from a terminal action or the budget, and malformed policy output
yields a corrective observation when parsing errors are handled).  The
configuration values are the ones the source passes to AgentExecutor at
src/integration/try-04-testing.py lines 277-283.
-/

/-- One structured policy output: a tool call, the terminal final answer, or
a payload that does not parse as an action. -/
inductive AgentAction where
  | toolCall (name input : String)
  | finalAnswer (text : String)
  | malformed (raw : String)
deriving DecidableEq, Repr

/-- One transcript entry: step ordinal, chosen action, its input, and the
observation recorded for it. -/
structure TranscriptEntry where
  step : Nat
  actionName : String
  actionInput : String
  observation : String
deriving DecidableEq, Repr

/-- Terminal outcome of a run: completed by an explicit final answer, or
stopped at the iteration budget with a recorded message. -/
inductive LoopOutcome where
  | completed (answer : String)
  | stoppedAtIterationLimit (message : String)
deriving DecidableEq, Repr

/-- Modelled from the spec: the corrective observation appended when the
policy output cannot be parsed as an action. -/
def correctiveObservation : String :=
  "could not parse your action; respond with a valid action"

/-- Modelled from the spec: the recorded message when the iteration budget
is exhausted. -/
def iterationLimitMessage : String :=
  "Agent stopped due to iteration limit."

/-- The handle_parsing_errors value passed to AgentExecutor at
src/integration/try-04-testing.py line 281. -/
def agentExecutorHandleParsingErrors : Bool := true

/-- The max_iterations value passed to AgentExecutor at
src/integration/try-04-testing.py line 282. -/
def agentExecutorMaxIterations : Nat := 15000

/-- The transcript entry recorded for a malformed policy payload. -/
def correctiveEntry (t : List TranscriptEntry) (raw : String) :
    TranscriptEntry :=
  { step := t.length, actionName := "malformed", actionInput := raw,
    observation := correctiveObservation }

/-- Modelled from the spec: one iteration of the plan-execute-observe loop.
The policy maps the transcript to one action; a tool call is dispatched
through the (total) tool map and its observation appended; a final answer
ends the run; a malformed payload is turned into the corrective observation
when parsing errors are handled, and otherwise raises out of the loop.
Fuel is the remaining iteration budget; exhausting it is the recorded
iteration-limit outcome. -/
def runLoop (handleParsingErrors : Bool)
    (policy : List TranscriptEntry → AgentAction)
    (tools : String → String → String) :
    Nat → List TranscriptEntry →
      Except String (LoopOutcome × List TranscriptEntry)
  | 0, t => .ok (.stoppedAtIterationLimit iterationLimitMessage, t)
  | n + 1, t =>
    match policy t with
    | .finalAnswer s => .ok (.completed s, t)
    | .toolCall name input =>
      runLoop handleParsingErrors policy tools n
        (t ++ [{ step := t.length, actionName := name, actionInput := input,
                 observation := tools name input }])
    | .malformed raw =>
      if handleParsingErrors then
        runLoop handleParsingErrors policy tools n (t ++ [correctiveEntry t raw])
      else .error raw

/-!
Startup of main, src/integration/try-04-testing.py lines 230-241: the guard
checks only PROJECT_PATH and GEMINI_API_KEY for truthiness (the empty string
is falsy in Python), then pathlib.Path is applied to SCHEMA_JSON_PATH before
any indexing or loop construction; pathlib.Path(None) raises TypeError.
-/

/-- Python truthiness of an optional environment string. -/
def truthy : Option String → Bool
  | none => false
  | some s => !(s == "")

/-- Outcome of the startup section of main: the guarded configuration-error
return, an uncaught TypeError from pathlib.Path(None), or reaching the rest
of main with both paths in hand. -/
inductive StartupOutcome where
  | configErrorReturn
  | uncaughtTypeError
  | proceeds (projectPath schemaPath : String)
deriving DecidableEq, Repr

/-- The startup section of main, src/integration/try-04-testing.py lines
230-241, as a function of the process environment. -/
def mainStartup (env : String → Option String) : StartupOutcome :=
  if truthy (env "PROJECT_PATH") && truthy (env "GEMINI_API_KEY") then
    match env "SCHEMA_JSON_PATH" with
    | none => .uncaughtTypeError
    | some sp => .proceeds ((env "PROJECT_PATH").getD "") sp
  else .configErrorReturn

/-- Whether startup reaches the part of main that builds the index and the
agent loop: only the proceeds outcome does. -/
def startupReachesAgentLoop (env : String → Option String) : Bool :=
  match mainStartup env with
  | .proceeds _ _ => true
  | _ => false

/-- Helper: with parsing-error handling on, the loop always returns an ok
outcome, whatever the policy emits. -/
theorem runLoop_handled_ok (policy : List TranscriptEntry → AgentAction)
    (tools : String → String → String) :
    ∀ (n : Nat) (t : List TranscriptEntry),
      ∃ o tr, runLoop true policy tools n t = .ok (o, tr) := by
  intro n
  induction n with
  | zero => exact fun t => ⟨_, _, rfl⟩
  | succ k ih =>
    intro t
    cases h : policy t with
    | finalAnswer s => exact ⟨LoopOutcome.completed s, t, by simp [runLoop, h]⟩
    | toolCall name input =>
      obtain ⟨o, tr, h3⟩ :=
        ih (t ++ [{ step := t.length, actionName := name, actionInput := input,
                    observation := tools name input }])
      exact ⟨o, tr, by simp only [runLoop, h]; exact h3⟩
    | malformed raw =>
      obtain ⟨o, tr, h3⟩ := ih (t ++ [correctiveEntry t raw])
      exact ⟨o, tr, by simp only [runLoop, h, if_true]; exact h3⟩

/-- C1: with the handle_parsing_errors configuration the source passes to
AgentExecutor, a malformed policy payload does not end or fail the run: the
loop spends one iteration appending the corrective observation to the
transcript and continues from PLANNING. -/
theorem malformed_action_keeps_loop_alive
    (policy : List TranscriptEntry → AgentAction) (tools : String → String → String)
    (t : List TranscriptEntry) (raw : String) (n : Nat)
    (h : policy t = AgentAction.malformed raw) :
    runLoop agentExecutorHandleParsingErrors policy tools (n + 1) t
      = runLoop agentExecutorHandleParsingErrors policy tools n
          (t ++ [correctiveEntry t raw]) ∧
    (correctiveEntry t raw).observation = correctiveObservation := by
  constructor
  · simp [runLoop, h, agentExecutorHandleParsingErrors]
  · rfl

/-- Witness for C1 at a concrete malformed payload. -/
theorem malformed_action_keeps_loop_alive_witness :
    runLoop agentExecutorHandleParsingErrors
        (fun _ => AgentAction.malformed "not json") (fun _ _ => "") 1 []
      = runLoop agentExecutorHandleParsingErrors
          (fun _ => AgentAction.malformed "not json") (fun _ _ => "") 0
          ([] ++ [correctiveEntry [] "not json"]) ∧
    (correctiveEntry [] "not json").observation = correctiveObservation :=
  malformed_action_keeps_loop_alive
    (fun _ => AgentAction.malformed "not json") (fun _ _ => "") [] "not json" 0 rfl

/-- C2: every run of the loop under the configuration the source passes to
AgentExecutor terminates with a recorded ok outcome (a completed final
answer or the iteration-limit outcome), never an uncaught error, and
exhausting the budget yields the recorded iteration-limit outcome rather
than a failure. -/
theorem agent_loop_always_terminates_ok
    (policy : List TranscriptEntry → AgentAction) (tools : String → String → String)
    (t : List TranscriptEntry) (n : Nat) :
    (∃ o tr, runLoop agentExecutorHandleParsingErrors policy tools n t = .ok (o, tr)) ∧
    runLoop agentExecutorHandleParsingErrors policy tools 0 t
      = .ok (LoopOutcome.stoppedAtIterationLimit iterationLimitMessage, t) :=
  ⟨runLoop_handled_ok policy tools n t, rfl⟩

/-- C3 counterexample: a type-checker invocation that exits with status zero
but prints a non-empty diagnostic is still reported with the success
message, so pass is not equivalent to zero exit status AND empty output. -/
theorem validate_pass_despite_nonempty_output :
    validate_typescript_code (some "/proj")
        (fun _ => ProcOutcome.completed 0 "src/a.ts(1,5): note unused variable" "")
      = .ok ("Command executed successfully. Output:\nsrc/a.ts(1,5): note unused variable") ∧
    "src/a.ts(1,5): note unused variable" ≠ "" :=
  ⟨rfl, by decide⟩

/-- C3 amended: validate reports the success message exactly when the exit
status is zero, with the diagnostic stdout appended but not inspected, and
reports every non-zero exit as the failure message carrying the raw stderr
and stdout. -/
theorem validate_pass_iff_zero_exit (pp out err : String) (code : Nat) :
    (code = 0 →
      validate_typescript_code (some pp) (fun _ => ProcOutcome.completed code out err)
        = .ok ("Command executed successfully. Output:\n" ++ out)) ∧
    (code ≠ 0 →
      validate_typescript_code (some pp) (fun _ => ProcOutcome.completed code out err)
        = .ok ("Command failed with exit code " ++ toString code ++
               ". Stderr:\n" ++ err ++ "\nStdout:\n" ++ out)) := by
  constructor
  · rintro rfl
    rfl
  · intro h
    cases code with
    | zero => exact absurd rfl h
    | succ k => rfl

/-- Witness for the amended C3 at a concrete failing exit status. -/
theorem validate_pass_iff_zero_exit_witness :
    validate_typescript_code (some "/proj")
        (fun _ => ProcOutcome.completed 2 "err TS2322" "")
      = .ok ("Command failed with exit code " ++ toString 2 ++
             ". Stderr:\n" ++ "" ++ "\nStdout:\n" ++ "err TS2322") :=
  (validate_pass_iff_zero_exit "/proj" "err TS2322" "" 2).2 (by decide)

/-- C4 counterexample: an OS-level failure of the subprocess launch (for
example FileNotFoundError when the configured project directory is missing)
is not caught by run_shell_command and escapes the tool boundary as an
exception, so the capability set is not total. -/
theorem run_shell_os_failure_escapes :
    run_shell_command (some "/proj") "npx tsc --noEmit"
        (fun _ => ProcOutcome.osError
          { cls := .fileNotFoundError, msg := "No such file or directory" })
      = .error { cls := .fileNotFoundError, msg := "No such file or directory" } :=
  rfl

/-- C4 amended: read_file, write_file and list_directory are total (every
input, unset project path and every filesystem failure included, yields an
ok result string), and run_shell_command returns an ok result for every
completed process whatever the exit status, but an exception that is not
CalledProcessError propagates across the boundary. -/
theorem tools_total_except_run_os_failures
    (pp : Option String) (fp content cmd : String)
    (fs : String → Except PyExn String) (wfs : String → String → Except PyExn Unit)
    (lfs : String → Except PyExn (List String)) (code : Nat) (out err : String)
    (p : String) (e : PyExn) (he : e.cls ≠ ExnClass.calledProcessError) :
    (∃ s, read_file pp fp fs = .ok s) ∧
    (∃ s, write_file pp fp content wfs = .ok s) ∧
    (∃ s, list_directory pp fp lfs = .ok s) ∧
    (∃ s, run_shell_command pp cmd (fun _ => ProcOutcome.completed code out err) = .ok s) ∧
    run_shell_command (some p) cmd (fun _ => ProcOutcome.osError e) = .error e := by
  refine ⟨?_, ?_, ?_, ?_, ?_⟩
  · cases pp with
    | none => exact ⟨_, rfl⟩
    | some q =>
      cases h : fs (osPathJoin q fp) with
      | ok c => exact ⟨c, by simp [read_file, exceptAll, h]⟩
      | error e2 =>
        exact ⟨"Error reading file " ++ fp ++ ": " ++ e2.msg,
          by simp [read_file, exceptAll, h]⟩
  · cases pp with
    | none => exact ⟨_, rfl⟩
    | some q =>
      cases h : wfs (osPathJoin q fp) content with
      | ok u =>
        exact ⟨"Successfully wrote to " ++ osPathJoin q fp ++ ".",
          by simp [write_file, exceptAll, h]⟩
      | error e2 =>
        exact ⟨"Error writing to file " ++ fp ++ ": " ++ e2.msg,
          by simp [write_file, exceptAll, h]⟩
  · cases pp with
    | none => exact ⟨_, rfl⟩
    | some q =>
      cases h : lfs (osPathJoin q fp) with
      | ok entries =>
        exact ⟨String.intercalate "\n" entries,
          by simp [list_directory, exceptAll, h]⟩
      | error e2 =>
        exact ⟨"Error listing directory " ++ fp ++ ": " ++ e2.msg,
          by simp [list_directory, exceptAll, h]⟩
  · cases pp with
    | none => exact ⟨_, rfl⟩
    | some q =>
      cases code with
      | zero => exact ⟨_, rfl⟩
      | succ k => exact ⟨_, rfl⟩
  · simp [run_shell_command, subprocessRunChecked, exceptOnly, he]

/-- Witness for the amended C4 at a concrete OS failure. -/
theorem tools_total_except_run_os_failures_witness :
    run_shell_command (some "/proj") "ls"
        (fun _ => ProcOutcome.osError { cls := ExnClass.fileNotFoundError, msg := "cwd missing" })
      = .error { cls := ExnClass.fileNotFoundError, msg := "cwd missing" } :=
  (tools_total_except_run_os_failures (some "/p") "f" "c" "ls"
    (fun _ => .ok "") (fun _ _ => .ok ()) (fun _ => .ok []) 0 "" "" "/proj"
    { cls := ExnClass.fileNotFoundError, msg := "cwd missing" } (by decide)).2.2.2.2

/-- C5 counterexample: the argument record run_shell_command hands to
subprocess.run carries no timeout at all, so there is no bounded timeout on
shell execution. -/
theorem run_shell_has_no_timeout :
    ¬ ∃ t, (mkSubprocessArgs "/proj" "npx tsc --noEmit").timeout = some t := by
  rintro ⟨t, h⟩
  simp [mkSubprocessArgs] at h

/-- C5 amended: every run_shell_command call executes the command with the
project root as working directory and no timeout bound (the subprocess is
consulted exactly at that argument record), and a non-zero exit status is
returned as a normal recoverable result rather than an abort. -/
theorem run_shell_cwd_no_timeout_nonzero_recoverable (p cmd : String) :
    (mkSubprocessArgs p cmd).cwd = p ∧
    (mkSubprocessArgs p cmd).timeout = none ∧
    (∀ exec₁ exec₂ : SubprocessArgs → ProcOutcome,
      exec₁ (mkSubprocessArgs p cmd) = exec₂ (mkSubprocessArgs p cmd) →
      run_shell_command (some p) cmd exec₁ = run_shell_command (some p) cmd exec₂) ∧
    (∀ code out err, code ≠ 0 →
      run_shell_command (some p) cmd (fun _ => ProcOutcome.completed code out err)
        = .ok ("Command failed with exit code " ++ toString code ++
               ". Stderr:\n" ++ err ++ "\nStdout:\n" ++ out)) := by
  refine ⟨rfl, rfl, ?_, ?_⟩
  · intro exec₁ exec₂ h
    simp [run_shell_command, subprocessRunChecked, h]
  · intro code out err h
    cases code with
    | zero => exact absurd rfl h
    | succ k => rfl

/-- Witness for the amended C5 at a concrete non-zero exit. -/
theorem run_shell_cwd_no_timeout_nonzero_recoverable_witness :
    run_shell_command (some "/proj") "npm install swiper"
        (fun _ => ProcOutcome.completed 1 "o" "e")
      = .ok ("Command failed with exit code " ++ toString 1 ++
             ". Stderr:\n" ++ "e" ++ "\nStdout:\n" ++ "o") :=
  (run_shell_cwd_no_timeout_nonzero_recoverable "/proj" "npm install swiper").2.2.2
    1 "o" "e" (by decide)

/-- C6 counterexample: a re-index whose scan finds no documents returns
early and the chunks of the previous run survive in the store, so the store
is not replaced wholesale with the chunks of the current scan. -/
theorem reindex_empty_scan_keeps_old_chunks :
    scanDocuments [] = [] ∧
    (index_project [] { store := [{ source := "old.ts", text := "stale chunk" }] }).1.store
      = [{ source := "old.ts", text := "stale chunk" }] ∧
    [({ source := "old.ts", text := "stale chunk" } : Chunk)] ≠ [] :=
  ⟨rfl, rfl, by decide⟩

/-- C6 amended: when the scan finds at least one document the store is
rebuilt to exactly the chunks of the current scan, and when the scan finds
none index_project returns early with the warning and the previous store
survives unchanged. -/
theorem index_project_store_characterization (files : List Document) (st : IndexerState) :
    (index_project files st).1.store
      = (if scanDocuments files = [] then st.store
         else (scanDocuments files).flatMap splitDocument) ∧
    ((index_project files st).2 = true ↔ scanDocuments files = []) := by
  by_cases h : scanDocuments files = [] <;> simp [index_project, h]

/-- C7: the glob pattern handed to the loader matches neither a .ts file nor
a .tsx file (pathlib performs no brace expansion; the braces are literal, as
the match of a file literally named with them shows), so a project
containing src/app.ts is indexed to an empty store with the warning,
contradicting the documented contract of index_project. -/
theorem ts_glob_matches_no_ts_files :
    globMatch tsGlobPattern "src/app.ts" = false ∧
    globMatch tsGlobPattern "components/Hero.tsx" = false ∧
    globMatch tsGlobPattern "odd.\x7bts,tsx\x7d" = true ∧
    index_project [{ source := "src/app.ts", text := "export const a = 1;" }] { store := [] }
      = ({ store := [] }, true) :=
  ⟨by decide, by decide, by decide, by decide⟩

/-- C8 counterexample: an index run that finds no matching files does not
leave the store empty when a previous persisted store was loaded; the stale
chunk is still there and retrieval returns it. -/
theorem empty_scan_leaves_previous_store :
    (index_project [] { store := [{ source := "stale.ts", text := "c" }] }).1.store ≠ [] ∧
    retrieve { store := [{ source := "stale.ts", text := "c" }] } get_retriever_k
      = [{ source := "stale.ts", text := "c" }] :=
  ⟨by decide, rfl⟩

/-- C8 amended: when the scan finds no matching files, index_project leaves
the store exactly as loaded (empty when no prior persisted index exists) and
emits the warning without failing, and retrieve on an empty store returns
the empty list. -/
theorem empty_scan_warns_and_empty_retrieve (files : List Document)
    (st : IndexerState) (k : Nat) (h : scanDocuments files = []) :
    (index_project files st).1 = st ∧
    (index_project files st).2 = true ∧
    (st.store = [] → retrieve st k = []) := by
  refine ⟨by simp [index_project, h], by simp [index_project, h], ?_⟩
  intro hs
  simp [retrieve, hs]

/-- Witness for the amended C8 on a fresh empty store. -/
theorem empty_scan_warns_and_empty_retrieve_witness :
    (index_project ([] : List Document) { store := [] }).1 = { store := [] } ∧
    retrieve { store := [] } get_retriever_k = [] :=
  ⟨(empty_scan_warns_and_empty_retrieve [] { store := [] } get_retriever_k rfl).1,
   (empty_scan_warns_and_empty_retrieve [] { store := [] } get_retriever_k rfl).2.2 rfl⟩

/-- C9: an absolute tool path argument survives the join untouched, so
read_file, write_file and list_directory resolve it to itself and their
behavior does not depend on the configured project root at all. -/
theorem absolute_paths_escape_project_root (root other p content : String)
    (fs : String → Except PyExn String) (wfs : String → String → Except PyExn Unit)
    (lfs : String → Except PyExn (List String))
    (h : strStartsWith p "/" = true) :
    osPathJoin root p = p ∧
    read_file (some root) p fs = read_file (some other) p fs ∧
    write_file (some root) p content wfs = write_file (some other) p content wfs ∧
    list_directory (some root) p lfs = list_directory (some other) p lfs := by
  have hj : ∀ r, osPathJoin r p = p := by
    intro r
    simp [osPathJoin, h]
  refine ⟨hj root, ?_, ?_, ?_⟩ <;>
    simp [read_file, write_file, list_directory, hj]

/-- Witness for C9 at a path outside the project tree. -/
theorem absolute_paths_escape_project_root_witness :
    osPathJoin "/proj" "/etc/hosts" = "/etc/hosts" ∧
    read_file (some "/proj") "/etc/hosts" (fun _ => .ok "h")
      = read_file (some "/other") "/etc/hosts" (fun _ => .ok "h") ∧
    write_file (some "/proj") "/etc/hosts" "data" (fun _ _ => .ok ())
      = write_file (some "/other") "/etc/hosts" "data" (fun _ _ => .ok ()) ∧
    list_directory (some "/proj") "/etc/hosts" (fun _ => .ok [])
      = list_directory (some "/other") "/etc/hosts" (fun _ => .ok []) :=
  absolute_paths_escape_project_root "/proj" "/other" "/etc/hosts" "data"
    (fun _ => .ok "h") (fun _ _ => .ok ()) (fun _ => .ok []) (by decide)

/-- C10: when SCHEMA_JSON_PATH is unset while PROJECT_PATH and the API
credential are set, startup ends in the uncaught TypeError from
pathlib.Path(None), not in the guarded configuration-error return, and the
index-and-loop part of main is never reached. -/
theorem missing_schema_env_uncaught_type_error (env : String → Option String)
    (hs : env "SCHEMA_JSON_PATH" = none)
    (hp : truthy (env "PROJECT_PATH") = true)
    (hk : truthy (env "GEMINI_API_KEY") = true) :
    mainStartup env = StartupOutcome.uncaughtTypeError ∧
    mainStartup env ≠ StartupOutcome.configErrorReturn ∧
    startupReachesAgentLoop env = false := by
  have h1 : mainStartup env = StartupOutcome.uncaughtTypeError := by
    simp [mainStartup, hs, hp, hk]
  exact ⟨h1, by simp [h1], by simp [startupReachesAgentLoop, h1]⟩

/-- Witness for C10 at a concrete environment. -/
theorem missing_schema_env_uncaught_type_error_witness :
    mainStartup
        (fun k => if k == "PROJECT_PATH" then some "/proj"
                  else if k == "GEMINI_API_KEY" then some "key" else none)
      = StartupOutcome.uncaughtTypeError ∧
    mainStartup
        (fun k => if k == "PROJECT_PATH" then some "/proj"
                  else if k == "GEMINI_API_KEY" then some "key" else none)
      ≠ StartupOutcome.configErrorReturn ∧
    startupReachesAgentLoop
        (fun k => if k == "PROJECT_PATH" then some "/proj"
                  else if k == "GEMINI_API_KEY" then some "key" else none)
      = false :=
  missing_schema_env_uncaught_type_error _ (by decide) (by decide) (by decide)
